import Mathlib

/-!
# Shallow embedding of the clothing-sales-platform core

This file embeds the order/cart/inventory/account core of the
`clothing-sales-platform` repository (Flask + SQLAlchemy) in Lean 4 and
proves properties of it.

Modelling conventions:
* Every persisted table is a `List` of row structures inside one `DB`
  record; row identity is a `Nat` id (the source uses UUID strings;
  freshness is modelled by a monotone `nextId` counter).
* Monetary values (`Numeric(10,2)` columns) are exact decimals in the
  source; they are modelled as `Int` (an exact integral number of cents).
  A nullable numeric column becomes `Option Int`.
* Each controller method runs in one request-scoped transaction: it
  receives the persisted state, stages changes on a working copy and
  persists only at `db.session.commit()`.  A method therefore returns
  `DB × Except Err α`: the persisted state after the call together with
  its result.  On an error raised before any commit the returned state
  is the input state, mirroring that an uncommitted session never
  becomes persisted.
-/

/-- A row of the `users` table (single-table inheritance on `role`).
Display/credential columns not consulted by the claims (`password_hash`,
`created_at`, the vendor-only `business_name` and `tax_id`) are omitted. -/
structure UserRow where
  id : Nat
  name : String
  email : String
  role : String
  approved : Bool
  suspended : Bool
  deriving Repr, DecidableEq

/-- A row of the `products` table.  The display-only `description` and
`image_url` columns are omitted. -/
structure ProductRow where
  id : Nat
  vendor_id : Nat
  name : String
  category : String
  base_price : Int
  available : Bool
  deriving Repr, DecidableEq

/-- A row of the `skus` table.  `price_adjustment` is nullable. -/
structure SkuRow where
  id : Nat
  product_id : Nat
  size : String
  color : String
  inventory : Int
  price_adjustment : Option Int
  deriving Repr, DecidableEq

/-- A row of the `carts` table (timestamps omitted; they carry no
logic beyond the most-recent ordering of `get_or_create_active_cart`,
which no claim exercises). -/
structure CartRow where
  id : Nat
  customer_id : Nat
  deriving Repr, DecidableEq

/-- A row of the `cart_items` table. -/
structure CartItemRow where
  id : Nat
  cart_id : Nat
  sku_id : Nat
  quantity : Int
  deriving Repr, DecidableEq

/-- A row of the `orders` table (timestamps omitted). -/
structure OrderRow where
  id : Nat
  customer_id : Nat
  status : String
  total_amount : Int
  deriving Repr, DecidableEq

/-- A row of the `order_items` table. -/
structure OrderItemRow where
  id : Nat
  order_id : Nat
  product_id : Nat
  sku_id : Nat
  quantity : Int
  unit_price : Int
  line_total : Int
  deriving Repr, DecidableEq

/-- A row of the `payment_records` table (`order_id` carries a UNIQUE
constraint, enforced at commit time; `timestamp` omitted). -/
structure PaymentRecordRow where
  id : Nat
  order_id : Nat
  amount : Int
  method : String
  transaction_id : Option String
  deriving Repr, DecidableEq

/-- A row of the `reviews` table (`created_at` omitted). -/
structure ReviewRow where
  id : Nat
  customer_id : Nat
  product_id : Nat
  rating : Int
  comment : Option String
  deriving Repr, DecidableEq

/-- The persisted store: one list per table, plus the fresh-id source
standing in for `uuid4`. -/
structure DB where
  users : List UserRow
  products : List ProductRow
  skus : List SkuRow
  carts : List CartRow
  cart_items : List CartItemRow
  orders : List OrderRow
  order_items : List OrderItemRow
  payment_records : List PaymentRecordRow
  reviews : List ReviewRow
  nextId : Nat
  deriving Repr, DecidableEq

/-- Domain and commit failures raised by the controllers.  Each
constructor corresponds to one distinguishable `ValueError` message (or,
for `commitFailed`, to the generic wrapped commit failure). -/
inductive Err where
  | emptyCart
  | invalidLine
  | productUnavailable
  | insufficientInventory
  | notFound
  | unavailable
  | amountMismatch
  | invalidRating
  | duplicateReview
  | invalidStatus
  | duplicateEmail
  | commitFailed
  deriving Repr, DecidableEq

/-- Embeds `Product.query.get` / the `sku.product` relationship. -/
def findProduct (db : DB) (pid : Nat) : Option ProductRow :=
  db.products.find? (fun p => p.id = pid)

/-- Embeds `SKU.query.get` / the `cart_item.sku` relationship. -/
def findSku (db : DB) (sid : Nat) : Option SkuRow :=
  db.skus.find? (fun k => k.id = sid)

/-- Embeds `Order.query.get`. -/
def findOrder (db : DB) (oid : Nat) : Option OrderRow :=
  db.orders.find? (fun o => o.id = oid)

/-- The `cart.items` relationship: the cart's lines in insertion order. -/
def cartItems (db : DB) (cartId : Nat) : List CartItemRow :=
  db.cart_items.filter (fun ci => ci.cart_id = cartId)

/-- Embeds `Product.get_final_price(sku)`: the source returns
`base_price + price_adjustment` only when `sku.price_adjustment` is
truthy (non-null and non-zero), and `base_price` otherwise. -/
def get_final_price (product : ProductRow) (sku : SkuRow) : Int :=
  match sku.price_adjustment with
  | some adj => if adj ≠ 0 then product.base_price + adj else product.base_price
  | none => product.base_price

/-- Embeds `SKU.is_available()`: inventory positive and parent product
available.  The source dereferences the non-null `sku.product`
relationship; a dangling `product_id` is treated as unavailable. -/
def sku_is_available (db : DB) (sku : SkuRow) : Bool :=
  decide (0 < sku.inventory) &&
    (match findProduct db sku.product_id with
     | some p => p.available
     | none => false)

/-- Embeds `CartController.add_item_to_cart(cart, sku_id, quantity)`.
Validates the SKU (existence, availability, inventory ≥ quantity), then
delegates to `Cart.add_item`, which sums quantities onto an existing
line for that SKU — without re-validating the summed quantity — or
inserts a fresh line, and commits. -/
def add_item_to_cart (db : DB) (cartId skuId : Nat) (quantity : Int) :
    DB × Except Err Nat :=
  match findSku db skuId with
  | none => (db, .error .notFound)
  | some sku =>
    if ¬ sku_is_available db sku then
      (db, .error .unavailable)
    else if sku.inventory < quantity then
      (db, .error .insufficientInventory)
    else
      match db.cart_items.find? (fun ci => ci.cart_id = cartId ∧ ci.sku_id = skuId) with
      | some existing =>
          ({ db with
              cart_items := db.cart_items.map (fun ci =>
                if ci.id = existing.id then
                  { ci with quantity := ci.quantity + quantity }
                else ci) },
           .ok existing.id)
      | none =>
          ({ db with
              cart_items := db.cart_items ++
                [{ id := db.nextId, cart_id := cartId, sku_id := skuId,
                   quantity := quantity }],
              nextId := db.nextId + 1 },
           .ok db.nextId)

/-- Embeds `Cart.remove_item(sku_id)` followed by the controller's commit
(`CartController.remove_item_from_cart`). -/
def remove_item_from_cart (db : DB) (cartId skuId : Nat) : DB × Bool :=
  match db.cart_items.find? (fun ci => ci.cart_id = cartId ∧ ci.sku_id = skuId) with
  | some item =>
      ({ db with cart_items := db.cart_items.filter (fun ci => ci.id ≠ item.id) }, true)
  | none => (db, false)

/-- Embeds `CartController.update_item_quantity(cart, sku_id, quantity)`:
quantity ≤ 0 removes the line; a missing line returns `None` untouched;
otherwise the new quantity is validated against current inventory and
overwritten.  The `Option Nat` result is the returned cart item's id
(`none` when the source returns `None`). -/
def update_item_quantity (db : DB) (cartId skuId : Nat) (quantity : Int) :
    DB × Except Err (Option Nat) :=
  if quantity ≤ 0 then
    ((remove_item_from_cart db cartId skuId).1, .ok none)
  else
    match db.cart_items.find? (fun ci => ci.cart_id = cartId ∧ ci.sku_id = skuId) with
    | none => (db, .ok none)
    | some item =>
      match findSku db item.sku_id with
      | some sku =>
          if sku.inventory < quantity then
            (db, .error .insufficientInventory)
          else
            ({ db with
                cart_items := db.cart_items.map (fun ci =>
                  if ci.id = item.id then { ci with quantity := quantity } else ci) },
             .ok (some item.id))
      | none =>
          -- `if cart_item.sku and ...` skips the check when the SKU is gone
          ({ db with
              cart_items := db.cart_items.map (fun ci =>
                if ci.id = item.id then { ci with quantity := quantity } else ci) },
           .ok (some item.id))

/-- Embeds `CartController.clear_cart` / `Cart.clear()`. -/
def clear_cart (db : DB) (cartId : Nat) : DB :=
  { db with cart_items := db.cart_items.filter (fun ci => ci.cart_id ≠ cartId) }

/-- Embeds `Cart.get_total_price()`: sums `get_final_price × quantity` over the
cart's lines, skipping a line whose SKU or product cannot be resolved. -/
def get_total_price (db : DB) (cartId : Nat) : Int :=
  ((cartItems db cartId).map (fun ci =>
      match findSku db ci.sku_id with
      | none => 0
      | some sku =>
        match findProduct db sku.product_id with
        | none => 0
        | some product => get_final_price product sku * ci.quantity)).sum

/-- The order item staged for one cart line: snapshot
`unit_price = product.get_final_price(sku)` and
`line_total = unit_price * cart_item.quantity`. -/
def orderLineItem (s : DB) (orderId : Nat) (product : ProductRow) (sku : SkuRow)
    (ci : CartItemRow) : OrderItemRow :=
  { id := s.nextId, order_id := orderId, product_id := product.id,
    sku_id := sku.id, quantity := ci.quantity,
    unit_price := get_final_price product sku,
    line_total := get_final_price product sku * ci.quantity }

/-- Session effect of one loop iteration of
`create_order_from_cart`: `db.session.add(order_item)` followed by
`sku.inventory -= cart_item.quantity`. -/
def orderLineStep (s : DB) (orderId : Nat) (product : ProductRow) (sku : SkuRow)
    (ci : CartItemRow) : DB :=
  { s with
      order_items := s.order_items ++ [orderLineItem s orderId product sku ci],
      nextId := s.nextId + 1,
      skus := s.skus.map (fun k =>
        if k.id = sku.id then { k with inventory := k.inventory - ci.quantity }
        else k) }

/-- The per-line loop of `OrderController.create_order_from_cart`:
resolves SKU and product, checks availability and inventory, then
stages the order item and the inventory decrement on the session state.
The source reaches its `if not sku or not product` check by first
dereferencing `cart_item.sku`; both missing-SKU and missing-product
lines make the call fail before any commit, modelled as `invalidLine`. -/
def processCartItems (orderId : Nat) : List CartItemRow → DB → Except Err DB
  | [], s => .ok s
  | ci :: rest, s =>
    match findSku s ci.sku_id with
    | none => .error .invalidLine
    | some sku =>
      match findProduct s sku.product_id with
      | none => .error .invalidLine
      | some product =>
        if ¬ product.available then .error .productUnavailable
        else if sku.inventory < ci.quantity then .error .insufficientInventory
        else processCartItems orderId rest (orderLineStep s orderId product sku ci)

/-- Embeds `Order.calculate_total()`: sets `total_amount` to the sum of
`line_total` over the order's items. -/
def calculate_total (s : DB) (orderId : Nat) : DB :=
  let total := ((s.order_items.filter (fun oi => oi.order_id = orderId)).map
    (fun oi => oi.line_total)).sum
  { s with
      orders := s.orders.map (fun o =>
        if o.id = orderId then { o with total_amount := total } else o) }

/-- Session state after `create_order_from_cart` stages the pending
order header and flushes (not commits) to obtain its id. -/
def orderHeaderState (db : DB) (customerId : Nat) : DB :=
  { db with
      orders := db.orders ++
        [{ id := db.nextId, customer_id := customerId, status := "pending",
           total_amount := 0 }],
      nextId := db.nextId + 1 }

/-- Embeds `OrderController.create_order_from_cart(customer, cart)`: rejects an
empty cart, flushes the pending order header, runs the line loop,
totals the order, commits everything as one unit, then clears the cart
in a second commit.  On any line failure nothing has been committed, so
the persisted state is the input state. -/
def create_order_from_cart (db : DB) (customerId cartId : Nat) :
    DB × Except Err Nat :=
  if (cartItems db cartId).isEmpty then (db, .error .emptyCart)
  else
    match processCartItems db.nextId (cartItems db cartId)
        (orderHeaderState db customerId) with
    | .error e => (db, .error e)
    | .ok s1 => (clear_cart (calculate_total s1 db.nextId) cartId, .ok db.nextId)

/-- Embeds `OrderController.attach_payment_record(order, amount, method,
transaction_id)`: rejects an amount differing from the order's total,
otherwise stages the payment record and sets the order's status to
`"paid"` unconditionally; the commit enforces the UNIQUE constraint on
`payment_records.order_id`, failing (and rolling back) when the order
already has a payment record. -/
def attach_payment_record (db : DB) (order : OrderRow) (amount : Int)
    (method : String) (transaction_id : Option String) : DB × Except Err Nat :=
  if amount ≠ order.total_amount then
    (db, .error .amountMismatch)
  else if db.payment_records.any (fun pr => pr.order_id = order.id) then
    (db, .error .commitFailed)
  else
    ({ db with
        payment_records := db.payment_records ++
          [{ id := db.nextId, order_id := order.id, amount := amount,
             method := method, transaction_id := transaction_id }],
        orders := db.orders.map (fun o =>
          if o.id = order.id then { o with status := "paid" } else o),
        nextId := db.nextId + 1 },
     .ok db.nextId)

/-- Embeds `OrderController.update_order_status(order_id, new_status)`. -/
def update_order_status (db : DB) (orderId : Nat) (newStatus : String) :
    DB × Except Err (Option Nat) :=
  if ¬ (newStatus ∈ ["pending", "paid", "processing", "shipped", "delivered",
      "cancelled"]) then
    (db, .error .invalidStatus)
  else
    match findOrder db orderId with
    | none => (db, .ok none)
    | some _ =>
        ({ db with
            orders := db.orders.map (fun o =>
              if o.id = orderId then { o with status := newStatus } else o) },
         .ok (some orderId))

/-- Update payload for `ProductController.update_product(**fields)`:
`none` means the keyword argument was not passed (or was `None`, which
`update_product` skips). -/
structure ProductUpdate where
  name : Option String := none
  category : Option String := none
  base_price : Option Int := none
  available : Option Bool := none
  deriving Repr, DecidableEq

/-- Embeds `ProductController.update_product(product_id, **fields)`: sets each
passed non-`None` allowed field and commits; returns `none` when the
product does not exist. -/
def update_product (db : DB) (productId : Nat) (u : ProductUpdate) :
    DB × Option Nat :=
  match findProduct db productId with
  | none => (db, none)
  | some _ =>
      ({ db with
          products := db.products.map (fun p =>
            if p.id = productId then
              { p with
                  name := u.name.getD p.name,
                  category := u.category.getD p.category,
                  base_price := u.base_price.getD p.base_price,
                  available := u.available.getD p.available }
            else p) },
       some productId)

/-- Update payload for `ProductController.update_sku(**fields)`.  Unlike
`update_product`, the source sets every passed allowed field even when
its value is `None`, so the nullable `price_adjustment` payload is an
`Option (Option Int)` (outer: was the kwarg passed; inner: the value). -/
structure SkuUpdate where
  size : Option String := none
  color : Option String := none
  inventory : Option Int := none
  price_adjustment : Option (Option Int) := none
  deriving Repr, DecidableEq

/-- Embeds `ProductController.update_sku(sku_id, **fields)`: sets each passed
allowed field — with no validation of `inventory` — and commits;
returns `none` when the SKU does not exist. -/
def update_sku (db : DB) (skuId : Nat) (u : SkuUpdate) : DB × Option Nat :=
  match findSku db skuId with
  | none => (db, none)
  | some _ =>
      ({ db with
          skus := db.skus.map (fun k =>
            if k.id = skuId then
              { k with
                  size := u.size.getD k.size,
                  color := u.color.getD k.color,
                  inventory := u.inventory.getD k.inventory,
                  price_adjustment := u.price_adjustment.getD k.price_adjustment }
            else k) },
       some skuId)

/-- Embeds `ProductController.add_sku(product, size, color, inventory,
price_adjustment)`: stages the new SKU with the given inventory (no
validation) and commits. -/
def add_sku (db : DB) (productId : Nat) (size color : String) (inventory : Int)
    (price_adjustment : Option Int) : DB × Nat :=
  ({ db with
      skus := db.skus ++
        [{ id := db.nextId, product_id := productId, size := size, color := color,
           inventory := inventory, price_adjustment := price_adjustment }],
      nextId := db.nextId + 1 },
   db.nextId)

/-- Embeds `ProductController.delete_product(product_id)`: deletes the product;
the configured cascades delete its SKUs, their cart items, and the
product's order items and reviews. -/
def delete_product (db : DB) (productId : Nat) : DB × Bool :=
  match findProduct db productId with
  | none => (db, false)
  | some _ =>
      let deadSkus := (db.skus.filter (fun k => k.product_id = productId)).map
        (fun k => k.id)
      ({ db with
          products := db.products.filter (fun p => p.id ≠ productId),
          skus := db.skus.filter (fun k => k.product_id ≠ productId),
          cart_items := db.cart_items.filter (fun ci => ci.sku_id ∉ deadSkus),
          order_items := db.order_items.filter (fun oi => oi.product_id ≠ productId),
          reviews := db.reviews.filter (fun r => r.product_id ≠ productId) },
       true)

/-- Embeds `ReviewController.add_review(customer, product, rating, comment)`:
rejects a rating outside [1,5], then rejects a duplicate
(customer, product) pair, then stages the review and commits. -/
def add_review (db : DB) (customerId productId : Nat) (rating : Int)
    (comment : Option String) : DB × Except Err Nat :=
  if rating < 1 ∨ rating > 5 then
    (db, .error .invalidRating)
  else if db.reviews.any (fun r =>
      r.customer_id = customerId ∧ r.product_id = productId) then
    (db, .error .duplicateReview)
  else
    ({ db with
        reviews := db.reviews ++
          [{ id := db.nextId, customer_id := customerId, product_id := productId,
             rating := rating, comment := comment }],
        nextId := db.nextId + 1 },
     .ok db.nextId)

/-- Embeds `AuthController.register_customer(name, email, password)`: rejects a
duplicate email, then creates a `Customer` (the `users` table default
`approved=True`, re-set explicitly by the controller) and commits.
Password hashing is outside the relational state modelled here. -/
def register_customer (db : DB) (name email : String) : DB × Except Err Nat :=
  if db.users.any (fun u => u.email = email) then
    (db, .error .duplicateEmail)
  else
    ({ db with
        users := db.users ++
          [{ id := db.nextId, name := name, email := email, role := "customer",
             approved := true, suspended := false }],
        nextId := db.nextId + 1 },
     .ok db.nextId)

/-- Embeds `AuthController.register_vendor(name, email, password, business_name,
tax_id)`: rejects a duplicate email, then creates a `Vendor` —
`Vendor.__init__` sets `approved=False` when no `approved` kwarg is
passed, and the controller re-sets it to `False` — and commits. -/
def register_vendor (db : DB) (name email : String) : DB × Except Err Nat :=
  if db.users.any (fun u => u.email = email) then
    (db, .error .duplicateEmail)
  else
    ({ db with
        users := db.users ++
          [{ id := db.nextId, name := name, email := email, role := "vendor",
             approved := false, suspended := false }],
        nextId := db.nextId + 1 },
     .ok db.nextId)

/-- Embeds `Admin.__init__(**kwargs)`: a freshly constructed `Admin` is always
`approved=True` (set unconditionally after `super().__init__`). -/
def admin_new (id : Nat) (name email : String) : UserRow :=
  { id := id, name := name, email := email, role := "admin",
    approved := true, suspended := false }

/-- Total quantity the given cart lines request for one SKU id.  Under
the schema's UNIQUE (cart_id, sku_id) constraint a SKU id occurs in at
most one line, so this is that line's quantity (or 0). -/
def lineQty (items : List CartItemRow) (sid : Nat) : Int :=
  ((items.filter (fun ci => ci.sku_id = sid)).map (fun ci => ci.quantity)).sum

/-- The pricing-relevant fields of a SKU row (everything but the
inventory and the display fields). -/
def skuPriceData (k : SkuRow) : Nat × Nat × Option Int :=
  (k.id, k.product_id, k.price_adjustment)

/-- An order item whose snapshot fields were computed from the catalog
of state `db`: its SKU and product resolve there, and
`unit_price = base_price + price_adjustment` (a null adjustment counts
as 0) with `line_total = unit_price × quantity`. -/
def itemPricedFrom (db : DB) (oi : OrderItemRow) : Prop :=
  ∃ k p, findSku db oi.sku_id = some k ∧ findProduct db k.product_id = some p ∧
    oi.product_id = p.id ∧
    oi.unit_price = p.base_price + k.price_adjustment.getD 0 ∧
    oi.line_total = oi.unit_price * oi.quantity

/-- Modelled from the spec: `totalPrice(cart)` as §4.2 words it — the
sum over the cart's lines of
`(product.base_price + sku.price_adjustment) × quantity` against the
current catalog (null adjustment read as 0), to be compared with the
source's `Cart.get_total_price`. -/
def get_total_price_spec (db : DB) (cartId : Nat) : Int :=
  ((cartItems db cartId).map (fun ci =>
      match findSku db ci.sku_id with
      | none => 0
      | some sku =>
        match findProduct db sku.product_id with
        | none => 0
        | some product =>
          (product.base_price + sku.price_adjustment.getD 0) * ci.quantity)).sum

/-- The inventory invariant of the spec's data-model table: every SKU's
inventory is non-negative. -/
def invOk (db : DB) : Prop :=
  ∀ k ∈ db.skus, 0 ≤ k.inventory

/-- Structural well-formedness maintained by the store: row ids are
allocated below the fresh-id counter and SKU ids are distinct (the
primary key). -/
def Wf (db : DB) : Prop :=
  (∀ k ∈ db.skus, k.id < db.nextId) ∧ (db.skus.map (fun k => k.id)).Nodup

/-- The state-mutating operations the core exposes to the routing layer
(§6): cart management, order creation, payment attach, status update,
review creation, catalog management and registration. -/
inductive Op where
  | addItem (cartId skuId : Nat) (quantity : Int)
  | updateQty (cartId skuId : Nat) (quantity : Int)
  | removeItem (cartId skuId : Nat)
  | clearCart (cartId : Nat)
  | createOrder (customerId cartId : Nat)
  | attachPayment (order : OrderRow) (amount : Int) (method : String)
      (transaction_id : Option String)
  | updateStatus (orderId : Nat) (newStatus : String)
  | addReview (customerId productId : Nat) (rating : Int) (comment : Option String)
  | updateProduct (productId : Nat) (u : ProductUpdate)
  | updateSku (skuId : Nat) (u : SkuUpdate)
  | addSku (productId : Nat) (size color : String) (inventory : Int)
      (price_adjustment : Option Int)
  | deleteProduct (productId : Nat)
  | registerCustomer (name email : String)
  | registerVendor (name email : String)
  deriving Repr

/-- The persisted state after one exposed operation (its result value
discarded; a failed operation leaves the persisted state unchanged). -/
def applyOp (db : DB) : Op → DB
  | .addItem cartId skuId q => (add_item_to_cart db cartId skuId q).1
  | .updateQty cartId skuId q => (update_item_quantity db cartId skuId q).1
  | .removeItem cartId skuId => (remove_item_from_cart db cartId skuId).1
  | .clearCart cartId => clear_cart db cartId
  | .createOrder customerId cartId => (create_order_from_cart db customerId cartId).1
  | .attachPayment o amount m t => (attach_payment_record db o amount m t).1
  | .updateStatus oid st => (update_order_status db oid st).1
  | .addReview cid pid r c => (add_review db cid pid r c).1
  | .updateProduct pid u => (update_product db pid u).1
  | .updateSku sid u => (update_sku db sid u).1
  | .addSku pid sz c inv adj => (add_sku db pid sz c inv adj).1
  | .deleteProduct pid => (delete_product db pid).1
  | .registerCustomer n e => (register_customer db n e).1
  | .registerVendor n e => (register_vendor db n e).1

/-- A whole call sequence of exposed operations. -/
def applyOps (db : DB) : List Op → DB
  | [] => db
  | op :: ops => applyOps (applyOp db op) ops

/-- An operation invocation that supplies only non-negative inventory
values to the two catalog calls that write `inventory` directly. -/
def OpSafe : Op → Prop
  | .updateSku _ u => ∀ v, u.inventory = some v → 0 ≤ v
  | .addSku _ _ _ inv _ => 0 ≤ inv
  | _ => True

/-- A small concrete store: one vendor product with two SKUs (ids 1
and 2, inventories 5 and 0), one customer cart (id 3) holding both
SKUs, used to exhibit concrete behaviours. -/
def sampleDb : DB :=
  { users := [{ id := 9, name := "alice", email := "alice@example.com",
                role := "customer", approved := true, suspended := false }],
    products := [{ id := 4, vendor_id := 8, name := "tee", category := "tops",
                   base_price := 1000, available := true }],
    skus := [{ id := 1, product_id := 4, size := "M", color := "red",
               inventory := 5, price_adjustment := some 50 },
             { id := 2, product_id := 4, size := "L", color := "blue",
               inventory := 0, price_adjustment := none }],
    carts := [{ id := 3, customer_id := 9 }],
    cart_items := [{ id := 20, cart_id := 3, sku_id := 1, quantity := 2 },
                   { id := 21, cart_id := 3, sku_id := 2, quantity := 1 }],
    orders := [{ id := 5, customer_id := 9, status := "pending",
                 total_amount := 2100 }],
    order_items := [], payment_records := [], reviews := [], nextId := 30 }

/-- State `sampleDb` without the out-of-stock line, so checkout succeeds. -/
def sampleDb2 : DB :=
  { sampleDb with
      cart_items := [{ id := 20, cart_id := 3, sku_id := 1, quantity := 2 }] }

example :
    (add_item_to_cart
      { users := [], products := [⟨1, 1, "tee", "tops", 1000, true⟩],
        skus := [⟨2, 1, "M", "red", 5, some 50⟩],
        carts := [⟨3, 9⟩], cart_items := [], orders := [], order_items := [],
        payment_records := [], reviews := [], nextId := 10 } 3 2 2).2 = .ok 10 := rfl

/-! ## Basic lemmas about pricing and cart-line arithmetic -/

/-- Fact: `get_final_price` always equals `base_price` plus the adjustment,
reading a null adjustment as 0 (the source's truthiness test on
`sku.price_adjustment` merges the null and zero cases, which agree
numerically). -/
theorem getFinalPrice_eq (p : ProductRow) (k : SkuRow) :
    get_final_price p k = p.base_price + k.price_adjustment.getD 0 := by
  unfold get_final_price
  cases h : k.price_adjustment with
  | none => simp
  | some a =>
    by_cases ha : a = 0 <;> simp [ha]

theorem lineQty_nil (sid : Nat) : lineQty [] sid = 0 := rfl

theorem lineQty_cons (ci : CartItemRow) (rest : List CartItemRow) (sid : Nat) :
    lineQty (ci :: rest) sid =
      (if ci.sku_id = sid then ci.quantity else 0) + lineQty rest sid := by
  unfold lineQty
  rw [List.filter_cons]
  by_cases h : ci.sku_id = sid <;> simp [h]

theorem lineQty_eq_zero (items : List CartItemRow) (sid : Nat)
    (h : ∀ ci ∈ items, ci.sku_id ≠ sid) : lineQty items sid = 0 := by
  induction items with
  | nil => rfl
  | cons a l ih =>
    rw [lineQty_cons, if_neg (h a (List.mem_cons_self a l)), zero_add]
    exact ih (fun ci hci => h ci (List.mem_cons_of_mem _ hci))

/-- With pairwise-distinct SKU ids (the schema's UNIQUE (cart_id,
sku_id)), the total quantity for a line's SKU is that line's quantity. -/
theorem lineQty_eq_of_nodup (items : List CartItemRow) (ci : CartItemRow)
    (hnd : (items.map (fun x => x.sku_id)).Nodup) (hm : ci ∈ items) :
    lineQty items ci.sku_id = ci.quantity := by
  induction items with
  | nil => cases hm
  | cons a l ih =>
    rw [List.map_cons, List.nodup_cons] at hnd
    rcases List.mem_cons.mp hm with rfl | hm'
    · rw [lineQty_cons, if_pos rfl, lineQty_eq_zero, add_zero]
      intro x hx hxe
      exact hnd.1 (hxe ▸ List.mem_map_of_mem (fun y => y.sku_id) hx)
    · rw [lineQty_cons, if_neg, ih hnd.2 hm', zero_add]
      intro heq
      exact hnd.1 (heq ▸ List.mem_map_of_mem (fun y => y.sku_id) hm')

/-- Lookup `find?` on an id-preserving rewrite of the SKU table finds the
rewritten row. -/
theorem findSku_map (l : List SkuRow) (f : SkuRow → SkuRow)
    (hid : ∀ k, (f k).id = k.id) (sid : Nat) :
    (l.map f).find? (fun k => k.id = sid) =
      (l.find? (fun k => k.id = sid)).map f := by
  rw [List.find?_map]
  have hfun : ((fun k : SkuRow => (decide (k.id = sid))) ∘ f) =
      (fun k : SkuRow => decide (k.id = sid)) := by
    funext k
    simp [Function.comp, hid]
  rw [hfun]

/-- Two SKU tables with the same pricing data resolve any id to rows
with the same pricing data. -/
theorem find?_skus_priceData (l1 : List SkuRow) :
    ∀ (l2 : List SkuRow), l1.map skuPriceData = l2.map skuPriceData →
    ∀ sid : Nat,
      (l1.find? (fun k => k.id = sid)).map skuPriceData =
        (l2.find? (fun k => k.id = sid)).map skuPriceData := by
  induction l1 with
  | nil =>
    intro l2 h sid
    cases l2 with
    | nil => rfl
    | cons b l2 => simp at h
  | cons a l1 ih =>
    intro l2 h sid
    cases l2 with
    | nil => simp at h
    | cons b l2 =>
      simp only [List.map_cons, List.cons.injEq] at h
      obtain ⟨hab, ht⟩ := h
      have hid : a.id = b.id := congrArg (fun x => x.1) hab
      by_cases hp : a.id = sid
      · rw [List.find?_cons_of_pos _ (by simpa using hp),
            List.find?_cons_of_pos _ (by simpa using (hid ▸ hp))]
        simp [hab]
      · rw [List.find?_cons_of_neg _ (by simpa using hp),
            List.find?_cons_of_neg _ (by simpa using (hid ▸ hp))]
        exact ih l2 ht sid

/-- Predicate `itemPricedFrom` only depends on the products table and the SKU
pricing data, so it transports backwards across inventory-only SKU
changes. -/
theorem itemPricedFrom_mono (s1 s : DB) (hp : s1.products = s.products)
    (hk : s1.skus.map skuPriceData = s.skus.map skuPriceData)
    (oi : OrderItemRow) (h : itemPricedFrom s1 oi) : itemPricedFrom s oi := by
  obtain ⟨k1, p, hf1, hfp, hpid, hup, hlt⟩ := h
  have hfind := find?_skus_priceData s1.skus s.skus hk oi.sku_id
  rw [show (s1.skus.find? fun k => k.id = oi.sku_id) = findSku s1 oi.sku_id from rfl,
      show (s.skus.find? fun k => k.id = oi.sku_id) = findSku s oi.sku_id from rfl,
      hf1] at hfind
  cases hf0 : findSku s oi.sku_id with
  | none => rw [hf0] at hfind; simp at hfind
  | some k0 =>
    rw [hf0] at hfind
    replace hfind : skuPriceData k1 = skuPriceData k0 := by
      simpa using hfind
    have hdata : k1.id = k0.id ∧ k1.product_id = k0.product_id ∧
        k1.price_adjustment = k0.price_adjustment := by
      have h1 := congrArg (fun x => x.1) hfind
      have h2 := congrArg (fun x => x.2.1) hfind
      have h3 := congrArg (fun x => x.2.2) hfind
      exact ⟨h1, h2, h3⟩
    refine ⟨k0, p, hf0, ?_, hpid, ?_, hlt⟩
    · rw [← hdata.2.1]
      show (s.products.find? fun q => q.id = k1.product_id) = some p
      rw [← hp]
      exact hfp
    · rw [hup, hdata.2.2]

/-! ## Structure of the `create_order_from_cart` loop -/

@[simp] theorem orderLineStep_users (s : DB) (oid : Nat) (p : ProductRow)
    (k : SkuRow) (ci : CartItemRow) : (orderLineStep s oid p k ci).users = s.users := rfl

@[simp] theorem orderLineStep_products (s : DB) (oid : Nat) (p : ProductRow)
    (k : SkuRow) (ci : CartItemRow) :
    (orderLineStep s oid p k ci).products = s.products := rfl

@[simp] theorem orderLineStep_skus (s : DB) (oid : Nat) (p : ProductRow)
    (k : SkuRow) (ci : CartItemRow) :
    (orderLineStep s oid p k ci).skus = s.skus.map (fun x =>
      if x.id = k.id then { x with inventory := x.inventory - ci.quantity }
      else x) := rfl

@[simp] theorem orderLineStep_carts (s : DB) (oid : Nat) (p : ProductRow)
    (k : SkuRow) (ci : CartItemRow) : (orderLineStep s oid p k ci).carts = s.carts := rfl

@[simp] theorem orderLineStep_cart_items (s : DB) (oid : Nat) (p : ProductRow)
    (k : SkuRow) (ci : CartItemRow) :
    (orderLineStep s oid p k ci).cart_items = s.cart_items := rfl

@[simp] theorem orderLineStep_orders (s : DB) (oid : Nat) (p : ProductRow)
    (k : SkuRow) (ci : CartItemRow) :
    (orderLineStep s oid p k ci).orders = s.orders := rfl

@[simp] theorem orderLineStep_order_items (s : DB) (oid : Nat) (p : ProductRow)
    (k : SkuRow) (ci : CartItemRow) :
    (orderLineStep s oid p k ci).order_items =
      s.order_items ++ [orderLineItem s oid p k ci] := rfl

@[simp] theorem orderLineStep_payment_records (s : DB) (oid : Nat) (p : ProductRow)
    (k : SkuRow) (ci : CartItemRow) :
    (orderLineStep s oid p k ci).payment_records = s.payment_records := rfl

@[simp] theorem orderLineStep_reviews (s : DB) (oid : Nat) (p : ProductRow)
    (k : SkuRow) (ci : CartItemRow) :
    (orderLineStep s oid p k ci).reviews = s.reviews := rfl

@[simp] theorem orderLineStep_nextId (s : DB) (oid : Nat) (p : ProductRow)
    (k : SkuRow) (ci : CartItemRow) :
    (orderLineStep s oid p k ci).nextId = s.nextId + 1 := rfl

/-- What a successful run of the `create_order_from_cart` line loop does
to the session state: inventories drop by the per-SKU cart quantity,
order items are appended with prices snapshotted from the pre-loop
catalog, and nothing else changes. -/
theorem processCartItems_ok (orderId : Nat) :
    ∀ (items : List CartItemRow) (s s' : DB),
    processCartItems orderId items s = .ok s' →
    s'.users = s.users ∧ s'.products = s.products ∧
    s'.skus = s.skus.map (fun k =>
      { k with inventory := k.inventory - lineQty items k.id }) ∧
    s'.carts = s.carts ∧ s'.cart_items = s.cart_items ∧
    s'.orders = s.orders ∧ s'.payment_records = s.payment_records ∧
    s'.reviews = s.reviews ∧ s.nextId ≤ s'.nextId ∧
    ∃ new : List OrderItemRow,
      s'.order_items = s.order_items ++ new ∧
      ∀ oi ∈ new, oi.order_id = orderId ∧ itemPricedFrom s oi := by
  intro items
  induction items with
  | nil =>
    intro s s' h
    simp only [processCartItems, Except.ok.injEq] at h
    subst h
    refine ⟨rfl, rfl, ?_, rfl, rfl, rfl, rfl, rfl, le_refl _, [], by simp, by simp⟩
    have hfun : (fun k : SkuRow =>
        { k with inventory := k.inventory - lineQty [] k.id }) = fun k => k := by
      funext k
      simp [lineQty_nil]
    rw [hfun, List.map_id']
  | cons ci rest ih =>
    intro s s' h
    simp only [processCartItems] at h
    split at h
    · exact (Except.noConfusion h)
    next sku hfk =>
      split at h
      · exact (Except.noConfusion h)
      next product hfp =>
        split at h
        · exact (Except.noConfusion h)
        split at h
        · exact (Except.noConfusion h)
        next hq =>
          have hsid : sku.id = ci.sku_id := by
            simpa using List.find?_some hfk
          obtain ⟨hu, hp, hsk, hc, hci, ho, hpr, hrv, hn, new1, hoi, hprops⟩ :=
            ih (orderLineStep s orderId product sku ci) s' h
          refine ⟨?_, ?_, ?_, ?_, ?_, ?_, ?_, ?_, ?_,
            orderLineItem s orderId product sku ci :: new1, ?_, ?_⟩
          · simpa using hu
          · simpa using hp
          · rw [hsk, orderLineStep_skus, List.map_map]
            apply List.map_congr_left
            intro k _
            rw [Function.comp_apply]
            by_cases hk : k.id = sku.id
            · rw [if_pos hk]
              show ({ k with inventory := k.inventory - ci.quantity
                        - lineQty rest k.id } : SkuRow) =
                { k with inventory := k.inventory - lineQty (ci :: rest) k.id }
              rw [lineQty_cons, if_pos (show ci.sku_id = k.id by rw [← hsid, hk])]
              have harith : k.inventory - ci.quantity - lineQty rest k.id =
                  k.inventory - (ci.quantity + lineQty rest k.id) := by ring
              rw [harith]
            · rw [if_neg hk]
              show ({ k with inventory := k.inventory - lineQty rest k.id } : SkuRow) =
                { k with inventory := k.inventory - lineQty (ci :: rest) k.id }
              rw [lineQty_cons,
                if_neg (show ¬ ci.sku_id = k.id from
                  fun hcon => hk (hsid.trans hcon).symm), zero_add]
          · simpa using hc
          · simpa using hci
          · simpa using ho
          · simpa using hpr
          · simpa using hrv
          · have : s.nextId + 1 ≤ s'.nextId := by simpa using hn
            omega
          · rw [hoi, orderLineStep_order_items, List.append_assoc]
            rfl
          · intro oi hmem
            rcases List.mem_cons.mp hmem with rfl | hmem'
            · refine ⟨rfl, sku, product, ?_, hfp, rfl, ?_, rfl⟩
              · show findSku s (orderLineItem s orderId product sku ci).sku_id = some sku
                have hsid2 : (orderLineItem s orderId product sku ci).sku_id = ci.sku_id := hsid
                rw [hsid2]
                exact hfk
              · exact getFinalPrice_eq product sku
            · have htrans := hprops oi hmem'
              refine ⟨htrans.1, ?_⟩
              apply itemPricedFrom_mono (orderLineStep s orderId product sku ci) s
              · exact orderLineStep_products s orderId product sku ci
              · rw [orderLineStep_skus, List.map_map]
                apply List.map_congr_left
                intro k _
                rw [Function.comp_apply]
                by_cases hk : k.id = sku.id
                · rw [if_pos hk]
                  rfl
                · rw [if_neg hk]
              · exact htrans.2

/-- Failure cases of `create_order_from_cart` happen before the first
commit, so the persisted state is exactly the input state. -/
theorem create_order_err (db : DB) (cid cartId : Nat) (e : Err)
    (h : (create_order_from_cart db cid cartId).2 = .error e) :
    (create_order_from_cart db cid cartId).1 = db := by
  unfold create_order_from_cart at h ⊢
  by_cases hi : (cartItems db cartId).isEmpty = true
  · rw [if_pos hi]
  · rw [if_neg hi] at h ⊢
    cases hp : processCartItems db.nextId (cartItems db cartId)
        (orderHeaderState db cid) with
    | error e' => simp [hp]
    | ok s1 => simp [hp] at h

/-- What a successful `create_order_from_cart` commits: the order header
with the summed total, the priced order items, the per-line inventory
decrements, and (in the second commit) the cleared cart. -/
theorem createOrder_ok (db : DB) (cid cartId : Nat) (db' : DB) (oid : Nat)
    (h : create_order_from_cart db cid cartId = (db', .ok oid)) :
    oid = db.nextId ∧
    db'.users = db.users ∧ db'.products = db.products ∧
    db'.skus = db.skus.map (fun k =>
      { k with inventory := k.inventory - lineQty (cartItems db cartId) k.id }) ∧
    db'.carts = db.carts ∧
    db'.cart_items = db.cart_items.filter (fun ci => ci.cart_id ≠ cartId) ∧
    db'.payment_records = db.payment_records ∧
    db'.reviews = db.reviews ∧
    db.nextId < db'.nextId ∧
    ∃ new : List OrderItemRow,
      db'.order_items = db.order_items ++ new ∧
      (∀ oi ∈ new, oi.order_id = db.nextId ∧ itemPricedFrom db oi) ∧
      db'.orders = (db.orders ++
        [({ id := db.nextId, customer_id := cid, status := "pending",
            total_amount := 0 } : OrderRow)]).map (fun o : OrderRow =>
        if o.id = db.nextId then
          { o with total_amount :=
              (((db.order_items ++ new).filter
                  (fun oi => oi.order_id = db.nextId)).map
                (fun oi => oi.line_total)).sum }
        else o) := by
  unfold create_order_from_cart at h
  split at h
  · simp at h
  · split at h
    next e' hp => simp at h
    next s1 hp =>
      rw [Prod.mk.injEq] at h
      obtain ⟨h1, h2⟩ := h
      have hoid : oid = db.nextId := by
        injection h2 with h3
        exact h3.symm
      subst h1
      obtain ⟨hu, hpp, hsk, hc, hci, ho, hpr, hrv, hn, new, hoi, hprops⟩ :=
        processCartItems_ok db.nextId (cartItems db cartId)
          (orderHeaderState db cid) s1 hp
      refine ⟨hoid, ?_, ?_, ?_, ?_, ?_, ?_, ?_, ?_, new, ?_, ?_, ?_⟩
      · exact hu
      · exact hpp
      · exact hsk
      · exact hc
      · show s1.cart_items.filter (fun ci => ci.cart_id ≠ cartId) =
          db.cart_items.filter (fun ci => ci.cart_id ≠ cartId)
        exact congrArg (List.filter _) hci
      · exact hpr
      · exact hrv
      · show db.nextId < s1.nextId
        have hn' : db.nextId + 1 ≤ s1.nextId := hn
        omega
      · exact hoi
      · intro oi hmem
        exact hprops oi hmem
      · show s1.orders.map (fun o =>
            if o.id = db.nextId then
              { o with total_amount :=
                  ((s1.order_items.filter
                      (fun oi => oi.order_id = db.nextId)).map
                    (fun oi => oi.line_total)).sum }
            else o) = _
        rw [ho, hoi]
        rfl

/-- Frame: `update_product` touches only the products table. -/
theorem update_product_frame (db : DB) (pid : Nat) (u : ProductUpdate) :
    (update_product db pid u).1.users = db.users ∧
    (update_product db pid u).1.skus = db.skus ∧
    (update_product db pid u).1.orders = db.orders ∧
    (update_product db pid u).1.order_items = db.order_items ∧
    (update_product db pid u).1.cart_items = db.cart_items ∧
    (update_product db pid u).1.nextId = db.nextId := by
  unfold update_product
  cases hf : findProduct db pid <;> simp

/-- Frame: `update_sku` touches only the SKU table. -/
theorem update_sku_frame (db : DB) (sid : Nat) (u : SkuUpdate) :
    (update_sku db sid u).1.users = db.users ∧
    (update_sku db sid u).1.products = db.products ∧
    (update_sku db sid u).1.orders = db.orders ∧
    (update_sku db sid u).1.order_items = db.order_items ∧
    (update_sku db sid u).1.cart_items = db.cart_items ∧
    (update_sku db sid u).1.nextId = db.nextId := by
  unfold update_sku
  cases hf : findSku db sid <;> simp

/-- C1: whenever `create_order_from_cart` fails — empty cart, a line
with a missing SKU or product, an unavailable product, or a quantity
over the SKU's inventory — the persisted state after the call is
exactly the state before it: no order or order items persist and no
inventory is decremented, even when earlier cart lines had already been
processed before the failing one (they were only staged on the
uncommitted session). -/
theorem spec_C1 (db : DB) (customerId cartId : Nat) (e : Err)
    (h : (create_order_from_cart db customerId cartId).2 = .error e) :
    (create_order_from_cart db customerId cartId).1 = db :=
  create_order_err db customerId cartId e h

theorem spec_C1_witness :
    (create_order_from_cart sampleDb 9 3).2 = .error .insufficientInventory ∧
    (create_order_from_cart sampleDb 9 3).1 = sampleDb :=
  ⟨rfl, spec_C1 sampleDb 9 3 .insufficientInventory rfl⟩

/-- C2: a successful `create_order_from_cart` decrements the inventory
of every SKU referenced by a cart line by exactly that line's quantity
(lines have distinct SKUs under the schema's UNIQUE (cart_id, sku_id)
constraint) and leaves every other SKU row unchanged. -/
theorem spec_C2 (db : DB) (customerId cartId : Nat) (db' : DB) (oid : Nat)
    (h : create_order_from_cart db customerId cartId = (db', .ok oid))
    (hnd : ((cartItems db cartId).map (fun ci => ci.sku_id)).Nodup) :
    (∀ ci ∈ cartItems db cartId, ∀ k, findSku db ci.sku_id = some k →
       findSku db' ci.sku_id =
         some { k with inventory := k.inventory - ci.quantity }) ∧
    (∀ sid : Nat, sid ∉ (cartItems db cartId).map (fun ci => ci.sku_id) →
       findSku db' sid = findSku db sid) := by
  obtain ⟨hoid, hu, hpp, hsk, hrest⟩ := createOrder_ok db customerId cartId db' oid h
  have hfind : ∀ sid : Nat, findSku db' sid =
      (findSku db sid).map (fun k =>
        { k with inventory := k.inventory - lineQty (cartItems db cartId) k.id }) := by
    intro sid
    show db'.skus.find? (fun k => k.id = sid) = _
    rw [hsk]
    exact findSku_map db.skus
      (fun k => { k with inventory := k.inventory - lineQty (cartItems db cartId) k.id })
      (fun k => rfl) sid
  constructor
  · intro ci hci k hk
    have hkid : k.id = ci.sku_id := by
      simpa using List.find?_some hk
    have hlq : lineQty (cartItems db cartId) k.id = ci.quantity := by
      rw [hkid]
      exact lineQty_eq_of_nodup _ ci hnd hci
    rw [hfind ci.sku_id, hk]
    show some ({ k with
        inventory := k.inventory - lineQty (cartItems db cartId) k.id } : SkuRow) = _
    rw [hlq]
  · intro sid hsid
    rw [hfind sid]
    cases hk : findSku db sid with
    | none => rfl
    | some k =>
      have hkid : k.id = sid := by
        simpa using List.find?_some hk
      have hlq : lineQty (cartItems db cartId) k.id = 0 := by
        apply lineQty_eq_zero
        intro ci hci hcon
        apply hsid
        rw [← hkid, ← hcon]
        exact List.mem_map_of_mem (fun x => x.sku_id) hci
      show some ({ k with
          inventory := k.inventory - lineQty (cartItems db cartId) k.id } : SkuRow) =
        some k
      rw [hlq]
      simp

theorem spec_C2_witness :
    findSku (create_order_from_cart sampleDb2 9 3).1 1 =
      some { id := 1, product_id := 4, size := "M", color := "red",
             inventory := 3, price_adjustment := some 50 } :=
  (spec_C2 sampleDb2 9 3 _ 30 rfl (by decide)).1
    { id := 20, cart_id := 3, sku_id := 1, quantity := 2 } (by decide)
    { id := 1, product_id := 4, size := "M", color := "red",
      inventory := 5, price_adjustment := some 50 } rfl

/-- C3: an order created by `create_order_from_cart` has
`total_amount = Σ line_total` over its items, each item's
`line_total = unit_price × quantity` with `unit_price` snapshotted from
the pre-call catalog as `base_price + price_adjustment` (null read as
0), and later `update_product` / `update_sku` catalog edits leave the
orders and order-items tables — hence the frozen prices and totals —
untouched.  `hfresh` says no pre-existing order item references the
freshly allocated order id (ids are unique UUIDs in the source). -/
theorem spec_C3 (db : DB) (customerId cartId : Nat) (db' : DB) (oid : Nat)
    (hfresh : ∀ oi ∈ db.order_items, oi.order_id ≠ db.nextId)
    (h : create_order_from_cart db customerId cartId = (db', .ok oid)) :
    (∃ o ∈ db'.orders, o.id = oid ∧
       o.total_amount = ((db'.order_items.filter
           (fun oi => oi.order_id = oid)).map (fun oi => oi.line_total)).sum) ∧
    (∀ oi ∈ db'.order_items, oi.order_id = oid →
       oi.line_total = oi.unit_price * oi.quantity ∧
       ∃ k p, findSku db oi.sku_id = some k ∧
         findProduct db k.product_id = some p ∧ oi.product_id = p.id ∧
         oi.unit_price = p.base_price + k.price_adjustment.getD 0) ∧
    (∀ pid u, (update_product db' pid u).1.orders = db'.orders ∧
       (update_product db' pid u).1.order_items = db'.order_items) ∧
    (∀ sid u, (update_sku db' sid u).1.orders = db'.orders ∧
       (update_sku db' sid u).1.order_items = db'.order_items) := by
  obtain ⟨hoid, hu, hpp, hsk, hc, hci, hpr, hrv, hn, new, hoi, hprops, horders⟩ :=
    createOrder_ok db customerId cartId db' oid h
  subst hoid
  refine ⟨?_, ?_, ?_, ?_⟩
  · refine ⟨{ id := db.nextId, customer_id := customerId, status := "pending",
              total_amount :=
                (((db.order_items ++ new).filter
                    (fun oi => oi.order_id = db.nextId)).map
                  (fun oi => oi.line_total)).sum }, ?_, rfl, ?_⟩
    · rw [horders]
      apply List.mem_map.mpr
      refine ⟨{ id := db.nextId, customer_id := customerId, status := "pending",
                total_amount := 0 }, ?_, ?_⟩
      · exact List.mem_append_right _ (List.mem_singleton.mpr rfl)
      · rw [if_pos rfl]
    · rw [hoi]
  · intro oi hm hord
    rw [hoi] at hm
    rcases List.mem_append.mp hm with hold | hnew
    · exact absurd hord (hfresh oi hold)
    · obtain ⟨-, k, p, hk, hp2, hpid, hup, hlt⟩ := hprops oi hnew
      exact ⟨hlt, k, p, hk, hp2, hpid, hup⟩
  · intro pid u
    exact ⟨(update_product_frame db' pid u).2.2.1,
      (update_product_frame db' pid u).2.2.2.1⟩
  · intro sid u
    exact ⟨(update_sku_frame db' sid u).2.2.1,
      (update_sku_frame db' sid u).2.2.2.1⟩

theorem spec_C3_witness :
    ∃ o ∈ (create_order_from_cart sampleDb2 9 3).1.orders, o.id = 30 ∧
      o.total_amount = (((create_order_from_cart sampleDb2 9 3).1.order_items.filter
          (fun oi => oi.order_id = 30)).map (fun oi => oi.line_total)).sum :=
  (spec_C3 sampleDb2 9 3 _ 30 (by decide) rfl).1

/-- C4: `add_item_to_cart` fails `NotFound` for a missing SKU id,
`Unavailable` for an unavailable SKU (zero inventory or unavailable
parent product), `InsufficientInventory` when the requested quantity
exceeds current inventory, and never fails when the SKU is available
and `0 < quantity ≤ inventory` — in particular also when the cart
already holds a line for that SKU whose summed quantity would exceed
inventory (the sum is not re-validated). -/
theorem spec_C4 (db : DB) (cartId skuId : Nat) (q : Int) :
    (findSku db skuId = none →
       add_item_to_cart db cartId skuId q = (db, .error .notFound)) ∧
    (∀ k, findSku db skuId = some k → sku_is_available db k = false →
       add_item_to_cart db cartId skuId q = (db, .error .unavailable)) ∧
    (∀ k, findSku db skuId = some k → sku_is_available db k = true →
       k.inventory < q →
       add_item_to_cart db cartId skuId q = (db, .error .insufficientInventory)) ∧
    (∀ k, findSku db skuId = some k → sku_is_available db k = true →
       0 < q → q ≤ k.inventory →
       ∃ itemId, (add_item_to_cart db cartId skuId q).2 = .ok itemId) := by
  refine ⟨?_, ?_, ?_, ?_⟩
  · intro hf
    unfold add_item_to_cart
    rw [hf]
  · intro k hf hav
    unfold add_item_to_cart
    rw [hf]
    simp only [hav]
    rfl
  · intro k hf hav hq
    unfold add_item_to_cart
    rw [hf]
    simp only [hav]
    simp only [Bool.true_eq_false, not_false_eq_true, if_false, if_neg, if_pos hq]
    rfl
  · intro k hf hav hq1 hq2
    unfold add_item_to_cart
    rw [hf]
    simp only [hav]
    rw [if_neg (by simp), if_neg (by omega)]
    cases db.cart_items.find? (fun ci => ci.cart_id = cartId ∧ ci.sku_id = skuId) with
    | some existing => exact ⟨existing.id, rfl⟩
    | none => exact ⟨db.nextId, rfl⟩

theorem spec_C4_witness :
    ∃ itemId, (add_item_to_cart sampleDb 3 1 3).2 = .ok itemId :=
  (spec_C4 sampleDb 3 1 3).2.2.2
    { id := 1, product_id := 4, size := "M", color := "red",
      inventory := 5, price_adjustment := some 50 }
    rfl rfl (by norm_num) (by norm_num)

/-- C5: `attach_payment_record` fails with `AmountMismatch` exactly when
the amount differs from `order.total_amount` (plain equality); on
success (amount equal, no existing record — the commit's UNIQUE
constraint) it creates the order's single `PaymentRecord` with that
amount and sets the order's status to `"paid"` whatever it was before
(no `pending` check: the theorem places no hypothesis on
`order.status`). -/
theorem spec_C5 (db : DB) (order : OrderRow) (amount : Int) (m : String)
    (t : Option String) :
    ((attach_payment_record db order amount m t).2 = .error .amountMismatch ↔
      amount ≠ order.total_amount) ∧
    (amount = order.total_amount →
     (∀ pr ∈ db.payment_records, pr.order_id ≠ order.id) →
     (attach_payment_record db order amount m t).2 = .ok db.nextId ∧
     (attach_payment_record db order amount m t).1.payment_records.filter
         (fun pr => pr.order_id = order.id) =
       [{ id := db.nextId, order_id := order.id, amount := amount, method := m,
          transaction_id := t }] ∧
     ∀ o ∈ (attach_payment_record db order amount m t).1.orders,
       o.id = order.id → o.status = "paid") := by
  constructor
  · unfold attach_payment_record
    by_cases hne : amount = order.total_amount
    · rw [if_neg (not_not_intro hne)]
      constructor
      · intro hcon
        by_cases hany : db.payment_records.any (fun pr => pr.order_id = order.id)
        · rw [if_pos hany] at hcon
          exact absurd (by injection hcon) (by simp)
        · rw [if_neg hany] at hcon
          exact (Except.noConfusion hcon)
      · intro hcon
        exact absurd hne hcon
    · rw [if_pos hne]
      simp [hne]
  · intro heq hnone
    have hany : ¬ db.payment_records.any (fun pr => pr.order_id = order.id) = true := by
      rw [List.any_eq_true]
      rintro ⟨pr, hm, hcon⟩
      exact hnone pr hm (by simpa using hcon)
    unfold attach_payment_record
    rw [if_neg (not_not_intro heq), if_neg hany]
    refine ⟨rfl, ?_, ?_⟩
    · show (db.payment_records ++
        [({ id := db.nextId, order_id := order.id, amount := amount, method := m,
            transaction_id := t } : PaymentRecordRow)]).filter
          (fun pr => pr.order_id = order.id) = _
      rw [List.filter_append]
      have h1 : db.payment_records.filter
          (fun pr => decide (pr.order_id = order.id)) = [] := by
        rw [List.filter_eq_nil_iff]
        intro pr hm
        simpa using hnone pr hm
      rw [h1, List.nil_append]
      simp
    · intro o hm hid
      have hm' : o ∈ db.orders.map (fun o =>
          if o.id = order.id then { o with status := "paid" } else o) := hm
      obtain ⟨o0, hmem0, heq0⟩ := List.mem_map.mp hm'
      by_cases h0 : o0.id = order.id
      · rw [if_pos h0] at heq0
        rw [← heq0]
      · rw [if_neg h0] at heq0
        subst heq0
        exact absurd hid h0

theorem spec_C5_witness :
    (attach_payment_record sampleDb
        { id := 5, customer_id := 9, status := "pending", total_amount := 2100 }
        2100 "credit_card" none).2 = .ok 30 :=
  ((spec_C5 sampleDb
      { id := 5, customer_id := 9, status := "pending", total_amount := 2100 }
      2100 "credit_card" none).2 rfl (by decide)).1

/-- Success shape of `add_review`. -/
theorem add_review_ok (db : DB) (customerId productId : Nat) (rating : Int)
    (comment : Option String) (h1 : 1 ≤ rating) (h2 : rating ≤ 5)
    (hdup : ¬ db.reviews.any (fun r => r.customer_id = customerId ∧
      r.product_id = productId) = true) :
    add_review db customerId productId rating comment =
      ({ db with
          reviews := db.reviews ++
            [{ id := db.nextId, customer_id := customerId,
               product_id := productId, rating := rating, comment := comment }],
          nextId := db.nextId + 1 }, .ok db.nextId) := by
  unfold add_review
  rw [if_neg (by omega), if_neg hdup]

/-- Duplicate-pair failure shape of `add_review`. -/
theorem add_review_dup (db : DB) (customerId productId : Nat) (rating : Int)
    (comment : Option String) (hr : ¬(rating < 1 ∨ rating > 5))
    (hdup : db.reviews.any (fun r => r.customer_id = customerId ∧
      r.product_id = productId) = true) :
    add_review db customerId productId rating comment =
      (db, .error .duplicateReview) := by
  unfold add_review
  rw [if_neg hr, if_pos hdup]

/-- C7: `add_review` fails with `InvalidRating` exactly when the rating
lies outside [1,5]; with a valid rating and no existing review for the
(customer, product) pair, the first call creates the review and any
second call for the same pair (with a rating passing the first guard)
fails with `DuplicateReview` and changes nothing. -/
theorem spec_C7 (db : DB) (customerId productId : Nat) (rating : Int)
    (comment : Option String) :
    ((add_review db customerId productId rating comment).2 =
        .error .invalidRating ↔ (rating < 1 ∨ rating > 5)) ∧
    (1 ≤ rating → rating ≤ 5 →
     (∀ rv ∈ db.reviews, ¬(rv.customer_id = customerId ∧
        rv.product_id = productId)) →
     (add_review db customerId productId rating comment).2 = .ok db.nextId ∧
     (∃ rv ∈ (add_review db customerId productId rating comment).1.reviews,
        rv.customer_id = customerId ∧ rv.product_id = productId ∧
        rv.rating = rating) ∧
     ∀ rating2 comment2, 1 ≤ rating2 → rating2 ≤ 5 →
       add_review (add_review db customerId productId rating comment).1
           customerId productId rating2 comment2 =
         ((add_review db customerId productId rating comment).1,
          .error .duplicateReview)) := by
  constructor
  · unfold add_review
    by_cases hr : rating < 1 ∨ rating > 5
    · rw [if_pos hr]
      simp [hr]
    · rw [if_neg hr]
      constructor
      · intro hcon
        by_cases hdup : db.reviews.any (fun r =>
            r.customer_id = customerId ∧ r.product_id = productId)
        · rw [if_pos hdup] at hcon
          exact absurd (by injection hcon) (by simp)
        · rw [if_neg hdup] at hcon
          exact (Except.noConfusion hcon)
      · intro hcon
        exact absurd hcon hr
  · intro h1 h2 hnone
    have hdup : ¬ db.reviews.any (fun r =>
        r.customer_id = customerId ∧ r.product_id = productId) = true := by
      rw [List.any_eq_true]
      rintro ⟨rv, hm, hcon⟩
      exact hnone rv hm (by simpa using hcon)
    rw [add_review_ok db customerId productId rating comment h1 h2 hdup]
    refine ⟨rfl, ?_, ?_⟩
    · refine ⟨{ id := db.nextId, customer_id := customerId,
                product_id := productId, rating := rating,
                comment := comment }, ?_, rfl, rfl, rfl⟩
      exact List.mem_append_right _ (List.mem_singleton.mpr rfl)
    · intro rating2 comment2 hr1 hr2
      apply add_review_dup
      · omega
      · rw [List.any_eq_true]
        refine ⟨{ id := db.nextId, customer_id := customerId,
                  product_id := productId, rating := rating,
                  comment := comment }, ?_, by simp⟩
        exact List.mem_append_right _ (List.mem_singleton.mpr rfl)

theorem spec_C7_witness :
    add_review (add_review sampleDb 9 4 5 none).1 9 4 3 none =
      ((add_review sampleDb 9 4 5 none).1, .error .duplicateReview) :=
  ((spec_C7 sampleDb 9 4 5 none).2 (by norm_num) (by norm_num)
    (by decide)).2.2 3 none (by norm_num) (by norm_num)

/-- C8: `Cart.get_total_price` computes, live against the current
catalog, the sum over the cart's lines of
`(base_price + price_adjustment) × quantity` (null adjustment read
as 0; a line whose SKU or product no longer resolves contributes 0 in
both the source and the spec reading), and the effective unit price of
every SKU is exactly `base_price + price_adjustment` — also when the
adjustment is zero, negative, or null. -/
theorem spec_C8 (db : DB) (cartId : Nat) :
    get_total_price db cartId = get_total_price_spec db cartId ∧
    ∀ (p : ProductRow) (k : SkuRow),
      get_final_price p k = p.base_price + k.price_adjustment.getD 0 := by
  constructor
  · unfold get_total_price get_total_price_spec
    apply congrArg List.sum
    apply List.map_congr_left
    intro ci _
    cases h1 : findSku db ci.sku_id with
    | none => rfl
    | some k =>
      cases h2 : findProduct db k.product_id with
      | none => simp [h2]
      | some p => simp [h2, getFinalPrice_eq]
  · exact getFinalPrice_eq

/-- C9: every account created by `register_vendor` starts with
`approved = false`; every account created by `register_customer`, and
every freshly constructed `Admin`, starts with `approved = true`. -/
theorem spec_C9 (db : DB) (n1 e1 n2 e2 : String) (id : Nat) (nm em : String) :
    (∀ uid db', register_vendor db n1 e1 = (db', .ok uid) →
       ∃ u ∈ db'.users, u.id = uid ∧ u.role = "vendor" ∧ u.approved = false) ∧
    (∀ uid db', register_customer db n2 e2 = (db', .ok uid) →
       ∃ u ∈ db'.users, u.id = uid ∧ u.role = "customer" ∧ u.approved = true) ∧
    (admin_new id nm em).approved = true := by
  refine ⟨?_, ?_, rfl⟩
  · intro uid db' h
    unfold register_vendor at h
    by_cases hdup : db.users.any (fun u => u.email = e1)
    · rw [if_pos hdup] at h
      simp at h
    · rw [if_neg hdup] at h
      rw [Prod.mk.injEq] at h
      obtain ⟨h1, h2⟩ := h
      have huid : uid = db.nextId := by
        injection h2 with h3
        exact h3.symm
      subst h1
      refine ⟨{ id := db.nextId, name := n1, email := e1, role := "vendor",
                approved := false, suspended := false }, ?_, huid.symm, rfl, rfl⟩
      exact List.mem_append_right _ (List.mem_singleton.mpr rfl)
  · intro uid db' h
    unfold register_customer at h
    by_cases hdup : db.users.any (fun u => u.email = e2)
    · rw [if_pos hdup] at h
      simp at h
    · rw [if_neg hdup] at h
      rw [Prod.mk.injEq] at h
      obtain ⟨h1, h2⟩ := h
      have huid : uid = db.nextId := by
        injection h2 with h3
        exact h3.symm
      subst h1
      refine ⟨{ id := db.nextId, name := n2, email := e2, role := "customer",
                approved := true, suspended := false }, ?_, huid.symm, rfl, rfl⟩
      exact List.mem_append_right _ (List.mem_singleton.mpr rfl)

theorem spec_C9_witness :
    ∃ u ∈ (register_vendor sampleDb "bob" "bob@example.com").1.users,
      u.id = 30 ∧ u.role = "vendor" ∧ u.approved = false :=
  (spec_C9 sampleDb "bob" "bob@example.com" "carol" "carol@example.com"
    0 "root" "root@example.com").1 30 _ rfl

/-- C10 (implicit): `update_item_quantity` with a positive quantity for
a SKU that has no line in the cart returns `None` without raising, and
leaves the whole persisted state — cart lines, quantities, inventories —
unchanged. -/
theorem spec_C10 (db : DB) (cartId skuId : Nat) (quantity : Int)
    (hq : 0 < quantity)
    (hno : ∀ ci ∈ db.cart_items, ¬(ci.cart_id = cartId ∧ ci.sku_id = skuId)) :
    update_item_quantity db cartId skuId quantity = (db, .ok none) := by
  unfold update_item_quantity
  rw [if_neg (by omega)]
  have hfind : db.cart_items.find?
      (fun ci => ci.cart_id = cartId ∧ ci.sku_id = skuId) = none := by
    rw [List.find?_eq_none]
    intro ci hm
    simpa using hno ci hm
  rw [hfind]

theorem spec_C10_witness :
    update_item_quantity sampleDb 3 2024 1 = (sampleDb, .ok none) :=
  spec_C10 sampleDb 3 2024 1 (by norm_num) (by decide)

/-! ## The inventory invariant (C6) -/

/-- Transport of `Wf ∧ invOk` along an operation that leaves the SKU
table untouched and does not decrease the id counter. -/
theorem wfInv_of_eq_skus (db db' : DB) (hsk : db'.skus = db.skus)
    (hn : db.nextId ≤ db'.nextId) (h : Wf db ∧ invOk db) :
    Wf db' ∧ invOk db' := by
  obtain ⟨⟨hb, hnd⟩, hinv⟩ := h
  refine ⟨⟨?_, ?_⟩, ?_⟩
  · intro k hk
    rw [hsk] at hk
    exact lt_of_lt_of_le (hb k hk) hn
  · rw [hsk]
    exact hnd
  · intro k hk
    rw [hsk] at hk
    exact hinv k hk

theorem add_item_frame (db : DB) (cartId skuId : Nat) (q : Int) :
    (add_item_to_cart db cartId skuId q).1.skus = db.skus ∧
    db.nextId ≤ (add_item_to_cart db cartId skuId q).1.nextId := by
  unfold add_item_to_cart
  split
  · exact ⟨rfl, le_refl _⟩
  split
  · exact ⟨rfl, le_refl _⟩
  split
  · exact ⟨rfl, le_refl _⟩
  split
  · exact ⟨rfl, le_refl _⟩
  · exact ⟨rfl, Nat.le_succ _⟩

theorem remove_item_frame (db : DB) (cartId skuId : Nat) :
    (remove_item_from_cart db cartId skuId).1.skus = db.skus ∧
    db.nextId ≤ (remove_item_from_cart db cartId skuId).1.nextId := by
  unfold remove_item_from_cart
  split
  · exact ⟨rfl, le_refl _⟩
  · exact ⟨rfl, le_refl _⟩

theorem update_qty_frame (db : DB) (cartId skuId : Nat) (q : Int) :
    (update_item_quantity db cartId skuId q).1.skus = db.skus ∧
    db.nextId ≤ (update_item_quantity db cartId skuId q).1.nextId := by
  unfold update_item_quantity
  split
  · exact remove_item_frame db cartId skuId
  split
  · exact ⟨rfl, le_refl _⟩
  split
  · split
    · exact ⟨rfl, le_refl _⟩
    · exact ⟨rfl, le_refl _⟩
  · exact ⟨rfl, le_refl _⟩

theorem attach_payment_frame (db : DB) (o : OrderRow) (amount : Int)
    (m : String) (t : Option String) :
    (attach_payment_record db o amount m t).1.skus = db.skus ∧
    db.nextId ≤ (attach_payment_record db o amount m t).1.nextId := by
  unfold attach_payment_record
  split
  · exact ⟨rfl, le_refl _⟩
  split
  · exact ⟨rfl, le_refl _⟩
  · exact ⟨rfl, Nat.le_succ _⟩

theorem update_status_frame (db : DB) (oid : Nat) (st : String) :
    (update_order_status db oid st).1.skus = db.skus ∧
    db.nextId ≤ (update_order_status db oid st).1.nextId := by
  unfold update_order_status
  split
  · exact ⟨rfl, le_refl _⟩
  split
  · exact ⟨rfl, le_refl _⟩
  · exact ⟨rfl, le_refl _⟩

theorem add_review_frame (db : DB) (cid pid : Nat) (rating : Int)
    (c : Option String) :
    (add_review db cid pid rating c).1.skus = db.skus ∧
    db.nextId ≤ (add_review db cid pid rating c).1.nextId := by
  unfold add_review
  split
  · exact ⟨rfl, le_refl _⟩
  split
  · exact ⟨rfl, le_refl _⟩
  · exact ⟨rfl, Nat.le_succ _⟩

theorem register_customer_frame (db : DB) (n e : String) :
    (register_customer db n e).1.skus = db.skus ∧
    db.nextId ≤ (register_customer db n e).1.nextId := by
  unfold register_customer
  split
  · exact ⟨rfl, le_refl _⟩
  · exact ⟨rfl, Nat.le_succ _⟩

theorem register_vendor_frame (db : DB) (n e : String) :
    (register_vendor db n e).1.skus = db.skus ∧
    db.nextId ≤ (register_vendor db n e).1.nextId := by
  unfold register_vendor
  split
  · exact ⟨rfl, le_refl _⟩
  · exact ⟨rfl, Nat.le_succ _⟩

/-- The `create_order_from_cart` loop keeps SKU ids distinct and keeps
every inventory non-negative: each decrement is guarded by the
`sku.inventory < quantity` check on the session state. -/
theorem processCartItems_inv (orderId : Nat) :
    ∀ (items : List CartItemRow) (s s' : DB),
    processCartItems orderId items s = .ok s' →
    (s.skus.map (fun k => k.id)).Nodup → invOk s → invOk s' := by
  intro items
  induction items with
  | nil =>
    intro s s' h hnd hinv
    simp only [processCartItems, Except.ok.injEq] at h
    subst h
    exact hinv
  | cons ci rest ih =>
    intro s s' h hnd hinv
    simp only [processCartItems] at h
    split at h
    · exact (Except.noConfusion h)
    next sku hfk =>
      split at h
      · exact (Except.noConfusion h)
      next product hfp =>
        split at h
        · exact (Except.noConfusion h)
        split at h
        · exact (Except.noConfusion h)
        next hq =>
          apply ih (orderLineStep s orderId product sku ci) s' h
          · rw [orderLineStep_skus, List.map_map]
            have hfun : ((fun k : SkuRow => k.id) ∘ (fun k =>
                if k.id = sku.id then
                  { k with inventory := k.inventory - ci.quantity }
                else k)) = (fun k : SkuRow => k.id) := by
              funext k
              rw [Function.comp_apply]
              by_cases hk : k.id = sku.id
              · rw [if_pos hk]
              · rw [if_neg hk]
            rw [hfun]
            exact hnd
          · intro k hk
            rw [orderLineStep_skus] at hk
            obtain ⟨k0, hk0, hk0eq⟩ := List.mem_map.mp hk
            by_cases h0 : k0.id = sku.id
            · rw [if_pos h0] at hk0eq
              subst hk0eq
              have hskumem : sku ∈ s.skus := List.mem_of_find?_eq_some hfk
              have hk0sku : k0 = sku :=
                List.inj_on_of_nodup_map hnd hk0 hskumem h0
              subst hk0sku
              show 0 ≤ k0.inventory - ci.quantity
              have hge : 0 ≤ k0.inventory := hinv k0 hk0
              omega
            · rw [if_neg h0] at hk0eq
              subst hk0eq
              exact hinv k0 hk0

/-- Order creation preserves non-negative inventories. -/
theorem create_order_inv (db : DB) (customerId cartId : Nat)
    (hnd : (db.skus.map (fun k => k.id)).Nodup) (hinv : invOk db) :
    invOk (create_order_from_cart db customerId cartId).1 := by
  unfold create_order_from_cart
  by_cases hi : (cartItems db cartId).isEmpty = true
  · rw [if_pos hi]
    exact hinv
  · rw [if_neg hi]
    cases hp : processCartItems db.nextId (cartItems db cartId)
        (orderHeaderState db customerId) with
    | error e =>
      simp only [hp]
      exact hinv
    | ok s1 =>
      simp only [hp]
      have hinv1 : invOk s1 :=
        processCartItems_inv db.nextId (cartItems db cartId)
          (orderHeaderState db customerId) s1 hp hnd hinv
      intro k hk
      exact hinv1 k hk

/-- Order creation preserves well-formedness and the inventory
invariant. -/
theorem create_order_pres (db : DB) (customerId cartId : Nat)
    (h : Wf db ∧ invOk db) :
    Wf (create_order_from_cart db customerId cartId).1 ∧
    invOk (create_order_from_cart db customerId cartId).1 := by
  obtain ⟨⟨hb, hnd⟩, hinv⟩ := h
  cases hres : (create_order_from_cart db customerId cartId).2 with
  | error e =>
    rw [create_order_err db customerId cartId e hres]
    exact ⟨⟨hb, hnd⟩, hinv⟩
  | ok oid =>
    have hpair : create_order_from_cart db customerId cartId =
        ((create_order_from_cart db customerId cartId).1, .ok oid) := by
      rw [← hres]
    obtain ⟨hoid, hu, hpp, hsk, hc, hci, hpr, hrv, hn, new, hoi, hprops, horders⟩ :=
      createOrder_ok db customerId cartId _ oid hpair
    refine ⟨⟨?_, ?_⟩, create_order_inv db customerId cartId hnd hinv⟩
    · intro k hk
      rw [hsk] at hk
      obtain ⟨k1, hk1, hkeq⟩ := List.mem_map.mp hk
      subst hkeq
      show k1.id < _
      exact lt_trans (hb k1 hk1) hn
    · rw [hsk, List.map_map]
      have hfun : ((fun k : SkuRow => k.id) ∘ (fun k =>
          { k with inventory := k.inventory -
              lineQty (cartItems db cartId) k.id })) =
          (fun k : SkuRow => k.id) := by
        funext k
        rfl
      rw [hfun]
      exact hnd

/-- Calling `update_sku` with a non-negative inventory value (or none) preserves
well-formedness and the inventory invariant. -/
theorem update_sku_pres (db : DB) (sid : Nat) (u : SkuUpdate)
    (hsafe : ∀ v, u.inventory = some v → 0 ≤ v) (h : Wf db ∧ invOk db) :
    Wf (update_sku db sid u).1 ∧ invOk (update_sku db sid u).1 := by
  obtain ⟨⟨hb, hnd⟩, hinv⟩ := h
  unfold update_sku
  cases hf : findSku db sid with
  | none =>
    simp only [hf]
    exact ⟨⟨hb, hnd⟩, hinv⟩
  | some k0 =>
    simp only [hf]
    refine ⟨⟨?_, ?_⟩, ?_⟩
    · intro k hk
      obtain ⟨k1, hk1, hkeq⟩ := List.mem_map.mp hk
      by_cases h1 : k1.id = sid
      · rw [if_pos h1] at hkeq
        subst hkeq
        exact hb k1 hk1
      · rw [if_neg h1] at hkeq
        subst hkeq
        exact hb k1 hk1
    · show ((db.skus.map (fun k =>
          if k.id = sid then
            { k with
                size := u.size.getD k.size,
                color := u.color.getD k.color,
                inventory := u.inventory.getD k.inventory,
                price_adjustment := u.price_adjustment.getD k.price_adjustment }
          else k)).map (fun k => k.id)).Nodup
      rw [List.map_map]
      have hfun : ((fun k : SkuRow => k.id) ∘ (fun k =>
          if k.id = sid then
            { k with
                size := u.size.getD k.size,
                color := u.color.getD k.color,
                inventory := u.inventory.getD k.inventory,
                price_adjustment := u.price_adjustment.getD k.price_adjustment }
          else k)) = (fun k : SkuRow => k.id) := by
        funext k
        rw [Function.comp_apply]
        by_cases hk : k.id = sid
        · rw [if_pos hk]
        · rw [if_neg hk]
      rw [hfun]
      exact hnd
    · intro k hk
      obtain ⟨k1, hk1, hkeq⟩ := List.mem_map.mp hk
      by_cases h1 : k1.id = sid
      · rw [if_pos h1] at hkeq
        subst hkeq
        show 0 ≤ u.inventory.getD k1.inventory
        cases hu : u.inventory with
        | none => simpa using hinv k1 hk1
        | some v => simpa [hu] using hsafe v hu
      · rw [if_neg h1] at hkeq
        subst hkeq
        exact hinv k1 hk1

/-- Calling `add_sku` with a non-negative initial inventory preserves
well-formedness and the inventory invariant. -/
theorem add_sku_pres (db : DB) (pid : Nat) (sz c : String) (inv : Int)
    (adj : Option Int) (hsafe : 0 ≤ inv) (h : Wf db ∧ invOk db) :
    Wf (add_sku db pid sz c inv adj).1 ∧ invOk (add_sku db pid sz c inv adj).1 := by
  obtain ⟨⟨hb, hnd⟩, hinv⟩ := h
  refine ⟨⟨?_, ?_⟩, ?_⟩
  · intro k hk
    rcases List.mem_append.mp hk with h1 | h1
    · exact lt_trans (hb k h1) (Nat.lt_succ_self _)
    · rw [List.mem_singleton] at h1
      subst h1
      exact Nat.lt_succ_self _
  · show ((db.skus ++
        [({ id := db.nextId, product_id := pid, size := sz, color := c,
            inventory := inv, price_adjustment := adj } : SkuRow)]).map
        (fun k => k.id)).Nodup
    rw [List.map_append]
    refine List.Nodup.append hnd (List.nodup_singleton _) ?_
    intro a ha hmem
    rw [List.map_singleton, List.mem_singleton] at hmem
    subst hmem
    obtain ⟨k1, hk1, hkeq⟩ := List.mem_map.mp ha
    exact absurd hkeq (Nat.ne_of_lt (hb k1 hk1))
  · intro k hk
    rcases List.mem_append.mp hk with h1 | h1
    · exact hinv k h1
    · rw [List.mem_singleton] at h1
      subst h1
      exact hsafe

/-- Cascade `delete_product` preserves well-formedness and the
inventory invariant. -/
theorem delete_product_pres (db : DB) (pid : Nat) (h : Wf db ∧ invOk db) :
    Wf (delete_product db pid).1 ∧ invOk (delete_product db pid).1 := by
  obtain ⟨⟨hb, hnd⟩, hinv⟩ := h
  unfold delete_product
  cases hf : findProduct db pid with
  | none =>
    simp only [hf]
    exact ⟨⟨hb, hnd⟩, hinv⟩
  | some p =>
    simp only [hf]
    refine ⟨⟨?_, ?_⟩, ?_⟩
    · intro k hk
      exact hb k (List.mem_of_mem_filter hk)
    · exact hnd.sublist ((List.filter_sublist _).map _)
    · intro k hk
      exact hinv k (List.mem_of_mem_filter hk)

/-- Every exposed operation invoked with non-negative inventory
arguments preserves well-formedness and the inventory invariant. -/
theorem applyOp_pres (db : DB) (op : Op) (h : Wf db ∧ invOk db)
    (hs : OpSafe op) : Wf (applyOp db op) ∧ invOk (applyOp db op) := by
  cases op with
  | addItem a b c =>
    exact wfInv_of_eq_skus db _ (add_item_frame db a b c).1
      (add_item_frame db a b c).2 h
  | updateQty a b c =>
    exact wfInv_of_eq_skus db _ (update_qty_frame db a b c).1
      (update_qty_frame db a b c).2 h
  | removeItem a b =>
    exact wfInv_of_eq_skus db _ (remove_item_frame db a b).1
      (remove_item_frame db a b).2 h
  | clearCart a =>
    exact wfInv_of_eq_skus db _ rfl (le_refl _) h
  | createOrder a b =>
    exact create_order_pres db a b h
  | attachPayment o amount m t =>
    exact wfInv_of_eq_skus db _ (attach_payment_frame db o amount m t).1
      (attach_payment_frame db o amount m t).2 h
  | updateStatus a b =>
    exact wfInv_of_eq_skus db _ (update_status_frame db a b).1
      (update_status_frame db a b).2 h
  | addReview a b c d =>
    exact wfInv_of_eq_skus db _ (add_review_frame db a b c d).1
      (add_review_frame db a b c d).2 h
  | updateProduct a u =>
    exact wfInv_of_eq_skus db _ (update_product_frame db a u).2.1
      (le_of_eq (update_product_frame db a u).2.2.2.2.2.symm) h
  | updateSku a u =>
    exact update_sku_pres db a u hs h
  | addSku a sz c inv adj =>
    exact add_sku_pres db a sz c inv adj hs h
  | deleteProduct a =>
    exact delete_product_pres db a h
  | registerCustomer n e =>
    exact wfInv_of_eq_skus db _ (register_customer_frame db n e).1
      (register_customer_frame db n e).2 h
  | registerVendor n e =>
    exact wfInv_of_eq_skus db _ (register_vendor_frame db n e).1
      (register_vendor_frame db n e).2 h

theorem applyOps_pres (ops : List Op) :
    ∀ db : DB, Wf db ∧ invOk db → (∀ op ∈ ops, OpSafe op) →
    Wf (applyOps db ops) ∧ invOk (applyOps db ops) := by
  induction ops with
  | nil =>
    intro db h _
    exact h
  | cons op ops ih =>
    intro db h hs
    exact ih (applyOp db op)
      (applyOp_pres db op h (hs op (List.mem_cons_self op ops)))
      (fun o ho => hs o (List.mem_cons_of_mem _ ho))

/-- C6, counterexample to the claim as stated: from a state in which
every SKU inventory is non-negative, one exposed operation —
`update_sku` with `inventory = -1`, which the source assigns without
any validation — reaches a state with a negative inventory. -/
theorem spec_C6_counterexample :
    invOk sampleDb ∧
    ∃ k ∈ (applyOps sampleDb
        [Op.updateSku 1 { inventory := some (-1) }]).skus,
      k.inventory < 0 := by
  constructor
  · show ∀ k ∈ sampleDb.skus, 0 ≤ k.inventory
    decide
  · decide

/-- C6, amended: from any well-formed state (distinct SKU ids, a fresh
id counter) with all inventories non-negative, every sequence of the
exposed operations in which `update_sku` and `add_sku` are only given
non-negative inventory values preserves non-negativity of every SKU's
inventory.  (The unamended claim fails because `update_sku` — and
`add_sku` — write any supplied inventory value, including negative
ones, without validation.) -/
theorem spec_C6_amended (db : DB) (ops : List Op) (hwf : Wf db)
    (hinv : invOk db) (hs : ∀ op ∈ ops, OpSafe op) :
    invOk (applyOps db ops) :=
  (applyOps_pres ops db ⟨hwf, hinv⟩ hs).2

theorem spec_C6_amended_witness :
    invOk (applyOps sampleDb
      [Op.addItem 3 1 1, Op.updateSku 1 { inventory := some 7 },
       Op.createOrder 9 3]) := by
  apply spec_C6_amended sampleDb _ (by unfold Wf; decide) (by unfold invOk; decide)
  intro op hop
  simp only [List.mem_cons, List.mem_singleton, List.not_mem_nil, or_false] at hop
  rcases hop with rfl | rfl | rfl
  · trivial
  · intro v hv
    have hv7 : (7 : Int) = v := by
      simpa using hv
    omega
  · trivial
